import Mathlib

/-!
Verification of the configuration-resolution and assembly pipeline of
`jupyterhub_service_page` (file `core.py`).

The `Service` class resolves configuration values (traitlets with lazy
defaults), builds the Tornado rule list and settings map, assembles a
two-tier Jinja2 template loader, and exposes `init_webapp` / `start`.
The definitions below embed that code: string helpers model the Python
`str.strip` / `str.startswith` / `str.endswith` primitives,
`url_path_join` embeds the JupyterHub collaborator of the same name,
and the lifecycle is explicit state passing over `ServiceState`.
-/

/-- Predicate used by the Python `'...'.strip('/')` model: the character
being stripped. -/
def isSlash (c : Char) : Bool := c = '/'

/-- Drop the trailing run of slashes from a list of characters. -/
def stripEnd (l : List Char) : List Char := (l.reverse.dropWhile isSlash).reverse

/-- Model of Python `s.strip('/')` on the character list: drop the leading
and the trailing run of slashes. -/
def pystripList (l : List Char) : List Char := stripEnd (l.dropWhile isSlash)

/-- Model of Python `s.strip('/')`. -/
def pystrip (s : String) : String := String.mk ( pystripList s.data)

/-- Model of Python `s.startswith(p)`. -/
def startswith (s p : String) : Bool := List.isPrefixOf p.data s.data

/-- Model of Python `s.endswith(p)`. -/
def endswith (s p : String) : Bool := List.isSuffixOf p.data s.data

/-- Embedding of `jupyterhub.utils.url_path_join`: join url pieces,
keeping the initial and final slash, collapsing slashes at the joins. -/
def url_path_join (pieces : List String) : String :=
  let initial := startswith (pieces.headD "") "/"
  let final := endswith (pieces.getLastD "") "/"
  let stripped := pieces.map pystrip
  let joined := String.intercalate "/" (stripped.filter (fun t => t ≠ ""))
  let r1 := if initial then "/" ++ joined else joined
  let r2 := if final then r1 ++ "/" else r1
  if r2 = "//" then "/" else r2

/-- Embedding of `Service.default_service_prefix`: the value of the
`JUPYTERHUB_SERVICE_PREFIX` environment variable (modelled as an
`Option String`) if set, else `/services/{name}/`. -/
def default_service_prefix (env : Option String) (name : String) : String :=
  env.getD ("/services/" ++ name ++ "/")

/-- Embedding of `Service.default_static_url_prefix`:
`url_path_join(self.service_prefix, "static/")`. -/
def default_static_url_prefix (sp : String) : String :=
  url_path_join [sp, "static/"]

/-- Embedding of the single-step `os.path.join(a, b)` used by the source. -/
def path_join (a b : String) : String :=
  if startswith b "/" then b
  else if a = "" ∨ endswith a "/" then a ++ b
  else a ++ "/" ++ b

/-- Values a configuration setting can take: the spec's ConfigValue types
(string, integer, boolean, ordered list of strings). -/
inductive CVal where
  | str (s : String)
  | int (n : Int)
  | bool (b : Bool)
  | list (l : List String)
deriving DecidableEq

/-- The configurable traits of `Service` that the claims are about, with
their resolved values. -/
structure ServiceConfig where
  config_file : String
  generate_config : Bool
  logo_file : String
  name : String
  port : Int
  service_prefix : String
  static_path : String
  static_url_prefix : String
  template_paths : List String
deriving DecidableEq

/-- The two opaque handler classes bound by the built-in rules. -/
inductive Handler where
  | staticFileHandler
  | logoHandler
deriving DecidableEq

/-- A Tornado rule specification: `(pattern, handler, {"path": path})`. -/
structure Rule where
  pattern : String
  handler : Handler
  path : String
deriving DecidableEq

/-- Embedding of `Service.static_file_handler_rule`. -/
def static_file_handler_rule (c : ServiceConfig) : Rule :=
  { pattern := ServiceConfig.service_prefix c ++ "static/(.*)",
    handler := .staticFileHandler,
    path := ServiceConfig.static_path c }

/-- Embedding of `Service.logo_handler_rule`. -/
def logo_handler_rule (c : ServiceConfig) : Rule :=
  { pattern := ServiceConfig.service_prefix c ++ "logo",
    handler := .logoHandler,
    path := ServiceConfig.logo_file c }

/-- The Jinja2 loader shapes that `init_loader` builds: a
`FileSystemLoader` over an ordered search path, a `PrefixLoader` with a
single mapping entry and a delimiter, and a two-element `ChoiceLoader`. -/
inductive Loader where
  | fileSystemLoader (searchpath : List String)
  | prefixLoader (key : String) (sub : Loader) (delim : Char)
  | choiceLoader (first second : Loader)
deriving DecidableEq

/-- Split a character list at the first occurrence of the delimiter:
model of Python `name.split(delimiter, 1)` succeeding with two parts. -/
def splitOnceList (d : Char) : List Char → Option (List Char × List Char)
  | [] => none
  | c :: rest =>
      if c = d then some ([], rest)
      else
        match splitOnceList d rest with
        | none => none
        | some (x, y) => some (c :: x, y)

/-- A filesystem modelled as the list of (directory, template-name) pairs
that exist. -/
def fsl_get (fs : List (String × String)) : List String → String → Option String
  | [], _ => none
  | p :: rest, name =>
      if (p, name) ∈ fs then some ( path_join p name) else fsl_get fs rest name

/-- Template lookup through a loader, following Jinja2 semantics: a
`FileSystemLoader` tries its directories in order; a `PrefixLoader` splits
the name at the first delimiter, delegates the remainder when the first
part equals its mapping key, and fails otherwise; a `ChoiceLoader` tries
its loaders in order. -/
def Loader.get (fs : List (String × String)) : Loader → String → Option String
  | .fileSystemLoader paths, name => fsl_get fs paths name
  | .prefixLoader key sub delim, name =>
      match splitOnceList delim name.data with
      | none => none
      | some (x, y) =>
          if String.mk x = key then Loader.get fs sub (String.mk y) else none
  | .choiceLoader l₁ l₂, name =>
      match Loader.get fs l₁ name with
      | some r => some r
      | none => Loader.get fs l₂ name

/-- Embedding of `Service.base_template_paths`: the service bundled path
`{DATA_FILES_PATH}/{name}/templates` and the shared bundled path
`{DATA_FILES_PATH}/templates`. `DATA_FILES_PATH` is the collaborator
constant `jupyterhub._data.DATA_FILES_PATH`, kept as a parameter `dfp`. -/
def base_template_paths (dfp name : String) : List String :=
  [ path_join dfp (name ++ "/templates"), path_join dfp "templates"]

/-- Embedding of the loader built by `Service.init_loader`:
`ChoiceLoader([PrefixLoader({"templates": FileSystemLoader(paths[:1])}, "/"),
FileSystemLoader(self.template_paths + paths)])`. -/
def make_loader (tp : List String) (dfp name : String) : Loader :=
  let paths := base_template_paths dfp name
  .choiceLoader
    (.prefixLoader "templates" (.fileSystemLoader (paths.take 1)) '/')
    (.fileSystemLoader (tp ++ paths))

/-- The Tornado web application object: rule list plus settings map. -/
structure Webapp where
  rules : List Rule
  settings : List (String × String)
deriving DecidableEq

/-- The mutable state of a `Service` instance during its lifecycle. -/
structure ServiceState where
  config : ServiceConfig
  log_initialized : Bool
  rules : List Rule
  settings : List (String × String)
  loader : Option Loader
  webapp : Option Webapp
  bound_port : Option Int
deriving DecidableEq

/-- Outcome of `sys.exit()` on the generate-config path: the process exit
code and what was printed to standard output beforehand. -/
structure ExitOutcome where
  code : Nat
  output : List (String × CVal)
deriving DecidableEq

/-- Modelled from the spec: the serializer behind
`self.generate_config_file()` (a `traitlets.config.Application` method not
under `src/`); it serializes the aggregate of resolved configuration
values as assignments that the config-file loader accepts. -/
def generate_config_file (c : ServiceConfig) : List (String × CVal) :=
  [("config_file", .str ( ServiceConfig.config_file c)),
   ("generate_config", .bool ( ServiceConfig.generate_config c)),
   ("logo_file", .str ( ServiceConfig.logo_file c)),
   ("name", .str ( ServiceConfig.name c)),
   ("port", .int ( ServiceConfig.port c)),
   ("service_prefix", .str ( ServiceConfig.service_prefix c)),
   ("static_path", .str ( ServiceConfig.static_path c)),
   ("static_url_prefix", .str ( ServiceConfig.static_url_prefix c)),
   ("template_paths", .list ( ServiceConfig.template_paths c))]

/-- Modelled from the spec: applying one declared assignment from a config
file to the configuration (part of the `self.load_config_file` collaborator
behavior, not under `src/`). An assignment to an unknown name or with a
mismatched type is ignored. -/
def apply_assignment (c : ServiceConfig) (a : String × CVal) : ServiceConfig :=
  match a with
  | ("config_file", .str v) => { c with config_file := v }
  | ("generate_config", .bool v) => { c with generate_config := v }
  | ("logo_file", .str v) => { c with logo_file := v }
  | ("name", .str v) => { c with name := v }
  | ("port", .int v) => { c with port := v }
  | ("service_prefix", .str v) => { c with service_prefix := v }
  | ("static_path", .str v) => { c with static_path := v }
  | ("static_url_prefix", .str v) => { c with static_url_prefix := v }
  | ("template_paths", .list v) => { c with template_paths := v }
  | _ => c

/-- Modelled from the spec: the config-file loader applies the file's
declared assignments as explicit values, in order. -/
def load_config_file (asn : List (String × CVal)) (c : ServiceConfig) : ServiceConfig :=
  asn.foldl apply_assignment c

/-- Embedding of `Service.handle_config`: on `generate_config`, print the
serialized default configuration and `sys.exit()` (exit status 0); else,
when `config_file` names a file, load it if it exists (`fa` models the
assignments found in the file, `none` meaning the file is absent). -/
def handle_config (fa : Option (List (String × CVal))) (s : ServiceState) :
    Except ExitOutcome ServiceState :=
  if ServiceConfig.generate_config (ServiceState.config s) then
    .error { code := 0, output := generate_config_file (ServiceState.config s) }
  else if ServiceConfig.config_file (ServiceState.config s) ≠ "" then
    match fa with
    | some asn => .ok { s with config := load_config_file asn (ServiceState.config s) }
    | none => .ok s
  else .ok s

/-- Embedding of `Service.init_logging` (logger-hierarchy surgery is a
side effect on the global logging registry; the state records that it
ran). -/
def init_logging (s : ServiceState) : ServiceState :=
  { s with log_initialized := true }

/-- Embedding of `Service.init_rules`: the rules list becomes exactly the
static-file rule followed by the logo rule. -/
def init_rules (s : ServiceState) : ServiceState :=
  { s with rules :=
      [ static_file_handler_rule (ServiceState.config s),
        logo_handler_rule (ServiceState.config s)] }

/-- Embedding of `Service.init_settings`. -/
def init_settings (s : ServiceState) : ServiceState :=
  { s with settings :=
      [("static_path", ServiceConfig.static_path (ServiceState.config s)),
       ("static_url_prefix", ServiceConfig.static_url_prefix (ServiceState.config s))] }

/-- Embedding of `Service.init_loader`. -/
def init_loader (dfp : String) (s : ServiceState) : ServiceState :=
  { s with loader := some ( make_loader
      ( ServiceConfig.template_paths (ServiceState.config s)) dfp
      ( ServiceConfig.name (ServiceState.config s))) }

/-- Embedding of `Service.initialize`: `handle_config`, then
`init_logging`, `init_rules`, `init_settings`, `init_loader`; the
generate-config path exits the process instead of returning. -/
def initialize' (dfp : String) (fa : Option (List (String × CVal)))
    (s : ServiceState) : Except ExitOutcome ServiceState :=
  match handle_config fa s with
  | .error e => .error e
  | .ok s₁ => .ok ( init_loader dfp ( init_settings ( init_rules ( init_logging s₁))))

/-- Embedding of `Service.init_webapp`: the web application is built from
the host-supplied rules followed by the built-in rules, with the settings
map. -/
def init_webapp (extra : List Rule) (s : ServiceState) : ServiceState :=
  { s with webapp := some { rules := extra ++ ServiceState.rules s,
                            settings := ServiceState.settings s } }

/-- Embedding of `Service.start`: bind the configured port (the event loop
itself is the external collaborator). -/
def start (s : ServiceState) : ServiceState :=
  { s with bound_port := some ( ServiceConfig.port (ServiceState.config s)) }

/-- A whole run: `initialize`, then `init_webapp`, then `start`; the
generate-config path exits before any of the later stages. -/
def run_service (dfp : String) (fa : Option (List (String × CVal)))
    (extra : List Rule) (s : ServiceState) : Except ExitOutcome ServiceState :=
  match initialize' dfp fa s with
  | .error e => .error e
  | .ok s₁ => .ok ( start ( init_webapp extra s₁))

/-- States of a single spec-level ConfigValue: never set, explicitly set
but not yet read, or memoized by a first read. -/
inductive VState where
  | unset
  | explicitly (v : CVal)
  | memoized (v : CVal)
deriving DecidableEq

/-- The spec's resolution-error taxonomy (the part claim C5 uses). -/
inductive ConfigError where
  | frozenValue
  | missingValue
deriving DecidableEq

/-- Modelled from the spec: a single ConfigValue of the spec's ConfigModel
resolver (the source delegates value resolution to the traitlets
collaborator, which is not under `src/`). The optional default rule is
abstracted by the value it evaluates to. -/
structure ConfigValue where
  state : VState
  defaultRule : Option CVal
deriving DecidableEq

/-- Modelled from the spec: reading a ConfigValue: a memoized value is
returned as is; an explicit value is memoized on first read; an unset
value evaluates its default rule and memoizes the result, or fails with
`missingValue` when there is no rule. -/
def read_value (cv : ConfigValue) : Except ConfigError (CVal × ConfigValue) :=
  match cv.state with
  | .memoized v => .ok (v, cv)
  | .explicitly v => .ok (v, { cv with state := .memoized v })
  | .unset =>
      match cv.defaultRule with
      | some v => .ok (v, { cv with state := .memoized v })
      | none => .error .missingValue

/-- Modelled from the spec: explicitly setting a ConfigValue: rejected
with `frozenValue` once the value has been read and memoized. -/
def set_value (w : CVal) (cv : ConfigValue) : Except ConfigError ConfigValue :=
  match cv.state with
  | .memoized _ => .error .frozenValue
  | _ => .ok { cv with state := .explicitly w }

/-- Splitting a name that starts with the `templates/` namespace yields
the `templates` key and the remainder. -/
theorem splitOnce_templates (r : List Char) :
    splitOnceList '/' ("templates/".data ++ r) = some ("templates".data, r) := rfl

/-- C6: the assembled loader has two tiers in order. Tier one resolves a
name under the `templates/` namespace exclusively against the service
bundled path `{dfp}/{name}/templates`, whatever else the filesystem (in
particular any caller override path) contains; tier two searches the
caller-supplied `template_paths`, then the service bundled path, then the
shared bundled path `{dfp}/templates`, so an override shadows the service
template which shadows the shared template. -/
theorem loader_tiering : ∀ (fs : List (String × String)) (tp : List String)
    (dfp name rest o t : String),
    (( path_join dfp (name ++ "/templates"), rest) ∈ fs →
      Loader.get fs ( make_loader tp dfp name) ("templates/" ++ rest) =
        some ( path_join ( path_join dfp (name ++ "/templates")) rest)) ∧
    (splitOnceList '/' t.data = none →
      (((o, t) ∈ fs →
        Loader.get fs ( make_loader [o] dfp name) t = some ( path_join o t)) ∧
      ((o, t) ∉ fs → ( path_join dfp (name ++ "/templates"), t) ∈ fs →
        Loader.get fs ( make_loader [o] dfp name) t =
          some ( path_join ( path_join dfp (name ++ "/templates")) t)) ∧
      ((o, t) ∉ fs → ( path_join dfp (name ++ "/templates"), t) ∉ fs →
        ( path_join dfp "templates", t) ∈ fs →
        Loader.get fs ( make_loader [o] dfp name) t =
          some ( path_join ( path_join dfp "templates") t)))) := by
  intro fs tp dfp name rest o t
  constructor
  · intro hmem
    have h1 : splitOnceList '/' (['t', 'e', 'm', 'p', 'l', 'a', 't', 'e', 's', '/'] ++ rest.data) =
        some (['t', 'e', 'm', 'p', 'l', 'a', 't', 'e', 's'], rest.data) :=
      splitOnce_templates rest.data
    have h2 : String.mk ['t', 'e', 'm', 'p', 'l', 'a', 't', 'e', 's'] = "templates" := rfl
    have h3 : String.mk rest.data = rest := rfl
    simp only [make_loader, base_template_paths, Loader.get, String.data_append]
    rw [h1]
    simp [h2, h3, fsl_get, hmem]
  · intro hsplit
    have htier1 : ∀ (sub : Loader),
        Loader.get fs (.prefixLoader "templates" sub '/') t = none := by
      intro sub
      simp only [Loader.get, hsplit]
    refine ⟨?_, ?_, ?_⟩
    · intro h1
      simp only [make_loader, base_template_paths, Loader.get, hsplit,
        List.cons_append, List.nil_append, fsl_get, if_pos h1]
    · intro h1 h2
      simp only [make_loader, base_template_paths, Loader.get, hsplit,
        List.cons_append, List.nil_append, fsl_get, if_neg h1, if_pos h2]
    · intro h1 h2 h3
      simp only [make_loader, base_template_paths, Loader.get, hsplit,
        List.cons_append, List.nil_append, fsl_get, if_neg h1, if_neg h2,
        if_pos h3]

/-- C6 witness: with `dfp = "D"`, `name = "svc"` and one override path
`"ov"`, a file present under the service bundled path wins the namespaced
lookup even though the override also has it; unscoped lookups fall through
override, service and shared paths in that order. -/
theorem loader_tiering_witness :
    (Loader.get [("ov", "p"), ("D/svc/templates", "p"), ("D/templates", "p")]
        ( make_loader ["ov"] "D" "svc") ("templates/" ++ "p") =
      some ( path_join ( path_join "D" ("svc" ++ "/templates")) "p")) ∧
    (Loader.get [("ov", "p"), ("D/svc/templates", "p"), ("D/templates", "p")]
        ( make_loader ["ov"] "D" "svc") "p" = some ( path_join "ov" "p")) ∧
    (Loader.get [("D/svc/templates", "p"), ("D/templates", "p")]
        ( make_loader ["ov"] "D" "svc") "p" =
      some ( path_join ( path_join "D" ("svc" ++ "/templates")) "p")) ∧
    (Loader.get [("D/templates", "p")]
        ( make_loader ["ov"] "D" "svc") "p" =
      some ( path_join ( path_join "D" "templates") "p")) := by
  refine ⟨?_, ?_, ?_, ?_⟩
  · exact (loader_tiering [("ov", "p"), ("D/svc/templates", "p"), ("D/templates", "p")]
      ["ov"] "D" "svc" "p" "ov" "p").1 (by decide)
  · exact (((loader_tiering [("ov", "p"), ("D/svc/templates", "p"), ("D/templates", "p")]
      ["ov"] "D" "svc" "p" "ov" "p").2 (by decide)).1) (by decide)
  · exact (((loader_tiering [("D/svc/templates", "p"), ("D/templates", "p")]
      ["ov"] "D" "svc" "p" "ov" "p").2 (by decide)).2.1) (by decide) (by decide)
  · exact (((loader_tiering [("D/templates", "p")]
      ["ov"] "D" "svc" "p" "ov" "p").2 (by decide)).2.2) (by decide) (by decide) (by decide)

/-- Characters in a leading slash run are slashes. -/
theorem slash_of_mem_takeWhile (l : List Char) (x : Char)
    (h : x ∈ l.takeWhile isSlash) : x = '/' := by
  have hx := List.mem_takeWhile_imp h
  simpa [isSlash] using hx

/-- The head of the remainder after dropping the slash run is not a
slash. -/
theorem dropWhile_head_not (l : List Char) (c : Char) (t : List Char)
    (h : l.dropWhile isSlash = c :: t) : isSlash c = false := by
  induction l with
  | nil => simp at h
  | cons x xs ih =>
    by_cases hx : isSlash x = true
    · rw [List.dropWhile_cons, if_pos hx] at h
      exact ih h
    · rw [List.dropWhile_cons, if_neg hx] at h
      injection h with h1 h2
      subst h1
      simp at hx
      exact hx

/-- When a list does not start with a doubled slash, its leading slash
run is empty or a single slash. -/
theorem run_le_one (l : List Char) (hp : ¬ ['/', '/'] <+: l) :
    l.takeWhile isSlash = [] ∨ l.takeWhile isSlash = ['/'] := by
  cases h : l.takeWhile isSlash with
  | nil => exact Or.inl rfl
  | cons x xs =>
    have hx : x = '/' := slash_of_mem_takeWhile l x (by rw [h]; exact List.mem_cons_self _ _)
    cases xs with
    | nil => rw [hx]; exact Or.inr rfl
    | cons y ys =>
      exfalso
      have hy : y = '/' := slash_of_mem_takeWhile l y
        (by rw [h]; exact List.mem_cons_of_mem _ (List.mem_cons_self _ _))
      apply hp
      have hpre : l.takeWhile isSlash <+: l := List.takeWhile_prefix _
      rw [h, hx, hy] at hpre
      exact List.IsPrefix.trans ⟨ys, rfl⟩ hpre

/-- Strings with the same character data are equal. -/
theorem string_ext (x y : String) (h : x.data = y.data) : x = y := by
  cases x; cases y; exact congrArg String.mk h

/-- Intercalating a two-element list inserts the separator once. -/
theorem intercalate_pair (sep x y : String) : String.intercalate sep [x, y] = x ++ sep ++ y := rfl

/-- Value of the static-url join on a string decomposed into a leading
slash run of length at most one, a core with slash-free ends, and a
trailing slash run of length at most one. -/
theorem upj_build (l a m b : List Char)
    (hl : l = a ++ (m ++ b))
    (ha : a = [] ∨ a = ['/'])
    (hb : b = [] ∨ b = ['/'])
    (hm : pystripList l = m)
    (c : Char) (m' : List Char) (hm' : m = c :: m')
    (hc : isSlash c = false)
    (d : Char) (d' : List Char) (hd' : m.reverse = d :: d')
    (hd : isSlash d = false) :
    default_static_url_prefix (String.mk l) =
      (if endswith (String.mk l) "/" then String.mk l else String.mk l ++ "/") ++ "static/" := by
  have hcne : ('/' : Char) ≠ c := by
    intro hEq; rw [← hEq] at hc; simp [isSlash] at hc
  have hdne : ('/' : Char) ≠ d := by
    intro hEq; rw [← hEq] at hd; simp [isSlash] at hd
  have hstrip : pystrip (String.mk l) = String.mk m := congrArg String.mk hm
  have hstat : pystrip "static/" = "static" := by decide
  have hfin : endswith "static/" "/" = true := by decide
  have hmne : String.mk m ≠ "" := by
    rw [hm']; intro hEq; simpa using congrArg String.data hEq
  have hfilter : List.filter (fun t => t ≠ "") (List.map pystrip [String.mk l, "static/"]) =
      [String.mk m, "static"] := by
    simp [hstrip, hstat, hmne]
  have hhead : List.headD [String.mk l, "static/"] "" = String.mk l := rfl
  have hlast : List.getLastD [String.mk l, "static/"] "" = "static/" := rfl
  have hLHS : default_static_url_prefix (String.mk l) =
      String.mk (a ++ (m ++ "/static/".data)) := by
    rcases ha with ha | ha
    · have hinit : startswith (String.mk l) "/" = false := by
        have hlc : l = c :: (m' ++ b) := by rw [hl, ha, hm']; simp
        rw [hlc]
        simp [startswith, List.isPrefixOf, hcne]
      simp only [ default_static_url_prefix, url_path_join, hhead, hlast, hfilter,
        intercalate_pair, hinit, hfin, if_true, Bool.false_eq_true, if_false]
      have hguard : (String.mk m ++ "/" ++ "static") ++ "/" ≠ "//" := by
        intro hEq
        have hlen := congrArg (fun t => t.data.length) hEq
        simp [String.data_append] at hlen
      rw [if_neg hguard, ha]
      apply string_ext
      simp [String.data_append]
    · have hinit : startswith (String.mk l) "/" = true := by
        have hlc : l = '/' :: (m ++ b) := by rw [hl, ha]; simp
        rw [hlc]
        simp [startswith, List.isPrefixOf]
      simp only [ default_static_url_prefix, url_path_join, hhead, hlast, hfilter,
        intercalate_pair, hinit, hfin, if_true, Bool.false_eq_true, if_false]
      have hguard : ("/" ++ (String.mk m ++ "/" ++ "static")) ++ "/" ≠ "//" := by
        intro hEq
        have hlen := congrArg (fun t => t.data.length) hEq
        simp [String.data_append] at hlen
      rw [if_neg hguard, ha]
      apply string_ext
      simp [String.data_append]
  rw [hLHS]
  rcases hb with hb | hb
  · have hfinl : endswith (String.mk l) "/" = false := by
      have hrev : l.reverse = d :: (d' ++ a.reverse) := by
        rw [hl, hb]
        simp [List.reverse_append, hd']
      simp [endswith, List.isSuffixOf, hrev, List.isPrefixOf, hdne]
    rw [hfinl]
    simp only [Bool.false_eq_true, if_false]
    apply string_ext
    rw [hl, hb]
    simp [String.data_append]
  · have hfinl : endswith (String.mk l) "/" = true := by
      have hrev : l.reverse = '/' :: (m.reverse ++ a.reverse) := by
        rw [hl, hb]
        simp [List.reverse_append]
      simp [endswith, List.isSuffixOf, hrev, List.isPrefixOf]
    rw [hfinl]
    simp only [if_true]
    apply string_ext
    rw [hl, hb]
    simp [String.data_append]

/-- C2 (amended): for every service_prefix that is nonempty and neither
begins nor ends with a doubled slash, the default `static_url_prefix` is
`service_prefix` with `static/` appended exactly once, the join
normalized: `service_prefix ++ "static/"` when it already ends with a
slash and `service_prefix ++ "/static/"` otherwise. (As stated the claim
fails: `url_path_join` also collapses slash runs at the two ends of
`service_prefix`, see the counterexample.) -/
theorem static_url_default_join (s : String) (h0 : s ≠ "")
    (hnp : startswith s "//" = false) (hns : endswith s "//" = false) :
    default_static_url_prefix s =
      (if endswith s "/" then s else s ++ "/") ++ "static/" := by
  obtain ⟨l⟩ := s
  have hl0 : l ≠ [] := by
    intro hEq
    apply h0
    rw [hEq]
  have hpre : ¬ ((['/', '/'] : List Char) <+: l) := by
    intro hp
    have hb : List.isPrefixOf (['/', '/'] : List Char) l = true :=
      List.isPrefixOf_iff_prefix.mpr hp
    have h2' : List.isPrefixOf (['/', '/'] : List Char) l = false := hnp
    rw [hb] at h2'
    cases h2'
  have hsuf : ¬ ((['/', '/'] : List Char) <:+ l) := by
    intro hp
    have hb : List.isSuffixOf (['/', '/'] : List Char) l = true :=
      List.isSuffixOf_iff_suffix.mpr hp
    have h3' : List.isSuffixOf (['/', '/'] : List Char) l = false := hns
    rw [hb] at h3'
    cases h3'
  obtain ⟨a, ha_def⟩ : ∃ a, a = l.takeWhile isSlash := ⟨_, rfl⟩
  obtain ⟨l1, hl1_def⟩ : ∃ x, x = l.dropWhile isSlash := ⟨_, rfl⟩
  obtain ⟨m, hm_def⟩ : ∃ x, x = (l1.reverse.dropWhile isSlash).reverse := ⟨_, rfl⟩
  obtain ⟨b, hb_def⟩ : ∃ x, x = (l1.reverse.takeWhile isSlash).reverse := ⟨_, rfl⟩
  have hl1mb : l1 = m ++ b := by
    rw [hm_def, hb_def, ← List.reverse_append, List.takeWhile_append_dropWhile,
      List.reverse_reverse]
  have hl : l = a ++ (m ++ b) := by
    rw [← hl1mb, ha_def, hl1_def, List.takeWhile_append_dropWhile]
  have hm : pystripList l = m := by
    rw [hm_def, hl1_def]
    rfl
  have ha2 : a = [] ∨ a = ['/'] := by
    rw [ha_def]
    exact run_le_one l hpre
  have hbT : l1.reverse.takeWhile isSlash = [] ∨ l1.reverse.takeWhile isSlash = ['/'] := by
    apply run_le_one
    intro hp
    apply hsuf
    have h1 : (['/', '/'] : List Char) <+: l.reverse := by
      have hx : l.reverse = l1.reverse ++ a.reverse := by
        rw [ha_def, hl1_def, ← List.reverse_append, List.takeWhile_append_dropWhile]
      rw [hx]
      exact hp.trans (List.prefix_append _ _)
    rw [show (['/', '/'] : List Char) = (['/', '/'] : List Char).reverse from rfl] at h1
    exact List.reverse_prefix.mp h1
  have hb2 : b = [] ∨ b = ['/'] := by
    rcases hbT with h | h
    · left; rw [hb_def, h]; rfl
    · right; rw [hb_def, h]; rfl
  cases hmm : m with
  | nil =>
    have hl' : l = a ++ b := by rw [hl, hmm]; simp
    have hone : l = ['/'] := by
      rcases ha2 with h1 | h1 <;> rcases hb2 with h2 | h2 <;> rw [h1, h2] at hl' <;> simp at hl'
      · exact absurd hl' hl0
      · exact hl'
      · exact hl'
      · exfalso; apply hpre; rw [hl']
    rw [hone]
    decide
  | cons c m' =>
    have hmne : m ≠ [] := by rw [hmm]; simp
    obtain ⟨d, d', hd'⟩ : ∃ d d', m.reverse = d :: d' := by
      cases hr : m.reverse with
      | nil => exact absurd (by simpa using congrArg List.reverse hr) hmne
      | cons x xs => exact ⟨x, xs, rfl⟩
    have hc : isSlash c = false := by
      have hstep : l.dropWhile isSlash = c :: (m' ++ b) := by
        rw [← hl1_def, hl1mb, hmm]
        simp
      exact dropWhile_head_not l c (m' ++ b) hstep
    have hd : isSlash d = false := by
      have hDm : l1.reverse.dropWhile isSlash = m.reverse := by
        rw [hm_def, List.reverse_reverse]
      have hstep : l1.reverse.dropWhile isSlash = d :: d' := by rw [hDm, hd']
      exact dropWhile_head_not l1.reverse d d' hstep
    exact upj_build l a m b hl ha2 hb2 hm c m' hmm hc d d' hd' hd

/-- C2 witness: a prefix without its trailing slash still gets a single
slash at the join. -/
theorem static_url_default_join_witness :
    default_static_url_prefix "/services/demo" =
      (if endswith "/services/demo" "/" then "/services/demo"
       else "/services/demo" ++ "/") ++ "static/" :=
  static_url_default_join "/services/demo" (by decide) (by decide) (by decide)

/-- C2 counterexample: for the resolved service_prefix `"//p/"` (which
ends with a slash) the default is `"/p/static/"`, not the claimed
`"//p/" ++ "static/"`; likewise `"p//"` yields `"p/static/"`, not
`"p//" ++ "static/"`: the join collapses slash runs at the ends of the
prefix, so the result is not always the prefix with `static/` appended. -/
theorem static_url_default_counterexample :
    default_static_url_prefix "//p/" = "/p/static/" ∧
    default_static_url_prefix "//p/" ≠ "//p/" ++ "static/" ∧
    default_static_url_prefix "p//" = "p/static/" ∧
    default_static_url_prefix "p//" ≠ "p//" ++ "static/" := by
  refine ⟨by decide, by decide, by decide, by decide⟩

/-- C1: for every valid explicit name value, the default of
`service_prefix` equals the value of `JUPYTERHUB_SERVICE_PREFIX` when that
variable is set, and `/services/{name}/` when it is unset. -/
theorem default_service_prefix_env : ∀ (name v : String),
    default_service_prefix (some v) name = v ∧
    default_service_prefix none name = "/services/" ++ name ++ "/" :=
  fun _ _ => ⟨rfl, rfl⟩

/-- C9: the rule patterns are the literal concatenations
`service_prefix ++ "static/(.*)"` and `service_prefix ++ "logo"`, with no
slash normalization; in particular `service_prefix = "/p"` yields the
pattern `/pstatic/(.*)`. -/
theorem rule_pattern_literal : ∀ (c : ServiceConfig),
    Rule.pattern ( static_file_handler_rule c) =
      ServiceConfig.service_prefix c ++ "static/(.*)" ∧
    Rule.pattern ( logo_handler_rule c) =
      ServiceConfig.service_prefix c ++ "logo" ∧
    Rule.pattern ( static_file_handler_rule { c with service_prefix := "/p" }) =
      "/pstatic/(.*)" :=
  fun _ => ⟨rfl, rfl, by exact (by decide : ("/p" : String) ++ "static/(.*)" = "/pstatic/(.*)")⟩

/-- C3: after `init_rules` the rules list is exactly the static rule (its
pattern `{service_prefix}static/(.*)`, the static-file handler, and
`static_path`) followed by the logo rule (its pattern
`{service_prefix}logo`, the logo handler, and `logo_file`); with
`name = "demo"` and the environment variable unset the two patterns are
`/services/demo/static/(.*)` and `/services/demo/logo`. -/
theorem init_rules_shape : ∀ (s : ServiceState),
    (ServiceState.rules ( init_rules s) =
      [{ pattern := ServiceConfig.service_prefix (ServiceState.config s) ++ "static/(.*)",
         handler := .staticFileHandler,
         path := ServiceConfig.static_path (ServiceState.config s) },
       { pattern := ServiceConfig.service_prefix (ServiceState.config s) ++ "logo",
         handler := .logoHandler,
         path := ServiceConfig.logo_file (ServiceState.config s) }]) ∧
    default_service_prefix none "demo" = "/services/demo/" ∧
    List.map Rule.pattern (ServiceState.rules ( init_rules
      { config := { config_file := "", generate_config := false, logo_file := "logo.png",
                    name := "demo", port := 8888,
                    service_prefix := default_service_prefix none "demo",
                    static_path := "st", static_url_prefix := "", template_paths := [] },
        log_initialized := false, rules := [], settings := [], loader := none,
        webapp := none, bound_port := none })) =
      ["/services/demo/static/(.*)", "/services/demo/logo"] :=
  fun _ => ⟨rfl, rfl, by decide⟩

/-- C7: `init_webapp(extra_rules)` constructs the web application from the
host-supplied rules followed by the built-in rules, together with the
current settings map. -/
theorem init_webapp_concat : ∀ (extra : List Rule) (s : ServiceState),
    ServiceState.webapp ( init_webapp extra s) =
      some { rules := extra ++ ServiceState.rules s,
             settings := ServiceState.settings s } :=
  fun _ _ => rfl

/-- C5: a successful read memoizes: reading again returns the identical
value and state, and an explicit set attempted after the read is rejected
with the FrozenValue error. -/
theorem config_value_memo_frozen : ∀ (cv cv₁ : ConfigValue) (v w : CVal),
    read_value cv = .ok (v, cv₁) →
    read_value cv₁ = .ok (v, cv₁) ∧ set_value w cv₁ = .error .frozenValue := by
  intro cv cv₁ v w h
  obtain ⟨st, dr⟩ := cv
  cases st with
  | unset =>
    cases dr with
    | none => simp [read_value] at h
    | some u =>
      simp [read_value] at h
      obtain ⟨h1, h2⟩ := h
      subst h1
      rw [← h2]
      exact ⟨rfl, rfl⟩
  | explicitly u =>
    simp [read_value] at h
    obtain ⟨h1, h2⟩ := h
    subst h1
    rw [← h2]
    exact ⟨rfl, rfl⟩
  | memoized u =>
    simp [read_value] at h
    obtain ⟨h1, h2⟩ := h
    subst h1
    rw [← h2]
    exact ⟨rfl, rfl⟩

/-- C5 witness: a concrete unset value with a default rule reads to that
default, reads identically a second time, and then refuses an explicit
set. -/
theorem config_value_memo_frozen_witness :
    read_value { state := .memoized (.str "x"), defaultRule := some (.str "x") } =
      .ok (.str "x", { state := .memoized (.str "x"), defaultRule := some (.str "x") }) ∧
    set_value (.int 3) { state := .memoized (.str "x"), defaultRule := some (.str "x") } =
      .error .frozenValue :=
  config_value_memo_frozen
    { state := .unset, defaultRule := some (.str "x") }
    { state := .memoized (.str "x"), defaultRule := some (.str "x") }
    (.str "x") (.int 3) rfl

/-- C8: feeding the generate-config output back through the config-file
loader reproduces the original resolved configuration, whatever the prior
state of the loaded configuration; the fields cover a string, an integer,
a boolean and a list value. -/
theorem config_roundtrip : ∀ (c c₀ : ServiceConfig),
    load_config_file ( generate_config_file c) c₀ = c := by
  intro c c₀
  obtain ⟨a1, a2, a3, a4, a5, a6, a7, a8, a9⟩ := c
  rfl

/-- C4: with the `generate_config` flag set, the whole run prints the
serialized default configuration and exits with status 0; no web
application is constructed and no port is bound (the run produces no
service state at all). -/
theorem generate_config_exits (dfp : String) (fa : Option (List (String × CVal)))
    (extra : List Rule) (s : ServiceState)
    (h : ServiceConfig.generate_config (ServiceState.config s) = true) :
    run_service dfp fa extra s =
      .error { code := 0, output := generate_config_file (ServiceState.config s) } := by
  simp [run_service, initialize', handle_config, h]

/-- C4 witness: a concrete state with the flag set exits with status 0 and
the serialized configuration. -/
theorem generate_config_exits_witness :
    run_service "D" none []
      { config := { config_file := "c.py", generate_config := true, logo_file := "l",
                    name := "n", port := 1, service_prefix := "/services/n/",
                    static_path := "sp", static_url_prefix := "su", template_paths := [] },
        log_initialized := false, rules := [], settings := [], loader := none,
        webapp := none, bound_port := none } =
      .error { code := 0, output := ( generate_config_file
        { config_file := "c.py", generate_config := true, logo_file := "l",
          name := "n", port := 1, service_prefix := "/services/n/",
          static_path := "sp", static_url_prefix := "su", template_paths := [] }) } :=
  generate_config_exits "D" none [] _ rfl

/-- C10: with the `generate_config` flag set, `handle_config` exits before
the load-config-file step: the outcome is independent of the config-file
contents and the printed script reflects the configuration as it stood
before any file load. -/
theorem handle_config_skips_file (fa : Option (List (String × CVal))) (s : ServiceState)
    (h : ServiceConfig.generate_config (ServiceState.config s) = true) :
    handle_config fa s =
      .error { code := 0, output := generate_config_file (ServiceState.config s) } ∧
    ∀ fa₂, handle_config fa s = handle_config fa₂ s := by
  refine ⟨by simp [handle_config, h], fun fa₂ => by simp [handle_config, h]⟩

/-- C10 witness: with the flag set, a present config file (with contents)
and an absent one produce the same exit outcome. -/
theorem handle_config_skips_file_witness :
    handle_config (some [("port", .int 9)])
      { config := { config_file := "c.py", generate_config := true, logo_file := "l",
                    name := "n", port := 1, service_prefix := "/services/n/",
                    static_path := "sp", static_url_prefix := "su", template_paths := [] },
        log_initialized := false, rules := [], settings := [], loader := none,
        webapp := none, bound_port := none } =
      .error { code := 0, output := ( generate_config_file
        { config_file := "c.py", generate_config := true, logo_file := "l",
          name := "n", port := 1, service_prefix := "/services/n/",
          static_path := "sp", static_url_prefix := "su", template_paths := [] }) } ∧
    handle_config (some [("port", .int 9)])
      { config := { config_file := "c.py", generate_config := true, logo_file := "l",
                    name := "n", port := 1, service_prefix := "/services/n/",
                    static_path := "sp", static_url_prefix := "su", template_paths := [] },
        log_initialized := false, rules := [], settings := [], loader := none,
        webapp := none, bound_port := none } =
    handle_config none
      { config := { config_file := "c.py", generate_config := true, logo_file := "l",
                    name := "n", port := 1, service_prefix := "/services/n/",
                    static_path := "sp", static_url_prefix := "su", template_paths := [] },
        log_initialized := false, rules := [], settings := [], loader := none,
        webapp := none, bound_port := none } := by
  have h := handle_config_skips_file (some [("port", .int 9)])
      { config := { config_file := "c.py", generate_config := true, logo_file := "l",
                    name := "n", port := 1, service_prefix := "/services/n/",
                    static_path := "sp", static_url_prefix := "su", template_paths := [] },
        log_initialized := false, rules := [], settings := [], loader := none,
        webapp := none, bound_port := none } rfl
  exact ⟨h.1, h.2 none⟩
